import Mathlib

/-!
Verification of the RNG90 crypto-chip driver (src/rng90.c, src/rng90.h).

The driver talks to the RNG90 device over a two-wire (TWI/I2C) bus: it
serialises a command packet, appends a 16-bit checksum, waits, then reads a
length-prefixed response frame back, validates its checksum and classifies it
by its declared length.

Modelling conventions of this shallow embedding:
* Bytes are `Nat` with explicit `% 256` where the C code uses `unsigned char`;
  16-bit values use `% 65536` (`unsigned int` is 16 bits on the AVR targets
  this driver is written for, and `struct RNG90_Packet_t` has no padding
  there, so its in-memory bytes are exactly
  count, opcode, param1, param2-low, param2-high).
* The checksum engine (`crc16_init` / `crc16_update` / `crc16_result` from
  utils/crc/crc16.h) is an external collaborator that is not part of this
  repository's sources; the driver only uses it through that interface, so it
  is modelled as an abstract `CrcModel` and every theorem quantifies over it.
* The bus read side is a stream `Nat → Nat`: `stream k` is the byte delivered
  by the k-th `twi_get` of a receive transaction.  The bus write side is a
  result function `wres : Nat → Bool`: `wres k` tells whether the k-th
  `twi_set` of an operation's transmit phase succeeded (`true` = `TWI_None`).
  Write index 0 is the `RNG90_EXECUTE_COMMAND` byte, 1..5 the packet header
  bytes, and for `rng90_random` 6..25 are the twenty filler payload bytes.
* Writes into caller-supplied buffers are modelled as the list of bytes
  stored, in order (byte j of the list is stored at buffer index j, matching
  `*(data + i - 1) = temp` for loop index i = j + 1).
-/

namespace RNG90

/-- Interface of the external checksum engine (`crc16_init`, `crc16_update`,
`crc16_result`).  `init` is the seed state (`CRC16_INITIAL_VALUE`), `update`
folds one byte into the state, `result` extracts the 16-bit result. -/
structure CrcModel where
  init : Nat
  update : Nat → Nat → Nat
  result : Nat → Nat

/-- The 16-bit value `crc16_result()` returns after the engine was seeded and
then fed the bytes `bs` in order. -/
def crcResult (m : CrcModel) (bs : List Nat) : Nat :=
  m.result (bs.foldl m.update m.init) % 65536

/- Constants from src/rng90.h (default macro values). -/

def RNG90_STANDARD_FRAME_SIZE : Nat := 4
def RNG90_INFO_FRAME_SIZE : Nat := 7
def RNG90_SERIAL_FRAME_SIZE : Nat := 19
def RNG90_NUMBER_FRAME_SIZE : Nat := 35
def RNG90_CRC_SIZE : Nat := 2
def RNG90_OPERATION_RANDOM_DATA_SIZE : Nat := 20
def RNG90_OPERATION_RANDOM_RNG_SIZE : Nat := 32
def RNG90_OPERATION_READ_SERIAL_SIZE : Nat := 8
def RNG90_OPERATION_SELF_TEST : Nat := 0x77
def RNG90_OPERATION_INFO : Nat := 0x30
def RNG90_OPERATION_RANDOM : Nat := 0x16
def RNG90_OPERATION_READ : Nat := 0x02
def RNG90_Run_DRBG_SelfTest : Nat := 0x01
def RNG90_Status_Success : Nat := 0x00
def RNG90_Status_SelfTest_Error : Nat := 0x07
def RNG90_Status_TWI_Error : Nat := 0xF0
def RNG90_Status_Other_Error : Nat := 0xFF
def RNG90_SelfTest_Success : Nat := 0x00
def RNG90_SelfTest_Error : Nat := 0xFF

/-- Size of the global receive buffer `unsigned char rng90_buffer[87]`
(src/rng90.c line 22). -/
def RNG90_BUFFER_SIZE : Nat := 87

/-- `struct RNG90_Packet_t` (rng90.h): count, opcode, param1, 16-bit param2,
16-bit crc. -/
structure RNG90_Packet where
  count : Nat
  opcode : Nat
  param1 : Nat
  param2 : Nat
  crc : Nat
deriving DecidableEq

/-- The five header bytes of a packet as they lie in memory on the AVR target
(no padding, little-endian `param2`); these are the bytes
`rng90_write` streams, `sizeof(RNG90_Packet) - RNG90_CRC_SIZE = 5`. -/
def packetHeaderBytes (p : RNG90_Packet) : List Nat :=
  [p.count % 256, p.opcode % 256, p.param1 % 256, p.param2 % 256, p.param2 / 256 % 256]

/-- `rng90_write` (rng90.c lines 43-58): adds 7 to the (8-bit) count field,
then streams the five header bytes through the checksum engine and onto the
bus.  Returns the mutated packet and the checksummed/written header bytes.
The `twi_set` return values are not inspected by the C code. -/
def rng90_write_bytes (p : RNG90_Packet) : RNG90_Packet × List Nat :=
  let p2 := { p with count := (p.count + 7) % 256 }
  (p2, packetHeaderBytes p2)

/-- `rng90_command` (rng90.c lines 60-70): the full byte sequence a command
transaction puts on the bus after the `RNG90_EXECUTE_COMMAND` word-address
byte: header bytes, then the checksum low byte, then the checksum high byte
(`0x00FF & crc`, `0x00FF & (crc >> 8)`). -/
def rng90_command_bytes (m : CrcModel) (p : RNG90_Packet) : List Nat :=
  let hdr := (rng90_write_bytes p).2
  let c := crcResult m hdr
  hdr ++ [c % 256, c / 256 % 256]

/-- Packet built by `rng90_selftest` (rng90.c lines 138-143). -/
def selftest_packet (test : Nat) : RNG90_Packet :=
  ⟨0, RNG90_OPERATION_SELF_TEST, test, 0, 0⟩

/-- Packet built by `rng90_info` (rng90.c lines 180-185). -/
def info_packet : RNG90_Packet := ⟨0, RNG90_OPERATION_INFO, 0x00, 0, 0⟩

/-- Packet built by `rng90_serial` (rng90.c lines 287-292);
`param1 = RNG90_OPERATION_READ_PARAM1 = 0x01`. -/
def serial_packet : RNG90_Packet := ⟨0, RNG90_OPERATION_READ, 0x01, 0, 0⟩

/-- Packet built by `rng90_random` (rng90.c lines 226-231);
count is preset to `RNG90_OPERATION_RANDOM_DATA_SIZE = 20`. -/
def random_packet : RNG90_Packet :=
  ⟨RNG90_OPERATION_RANDOM_DATA_SIZE, RNG90_OPERATION_RANDOM, 0x00, 0, 0⟩

/-- Bus bytes transmitted by `rng90_selftest`'s command phase. -/
def rng90_selftest_sent (m : CrcModel) (test : Nat) : List Nat :=
  rng90_command_bytes m (selftest_packet test)

/-- Bus bytes transmitted by `rng90_info`'s command phase. -/
def rng90_info_sent (m : CrcModel) : List Nat :=
  rng90_command_bytes m info_packet

/-- Bus bytes transmitted by `rng90_serial`'s command phase. -/
def rng90_serial_sent (m : CrcModel) : List Nat :=
  rng90_command_bytes m serial_packet

/-- Bus bytes transmitted by `rng90_random`'s command phase when no write
fails (rng90.c lines 233-249): header bytes, twenty
`RNG90_OPERATION_RANDOM_DATA = 0x00` filler bytes (each also folded into the
checksum), then the checksum low and high bytes. -/
def rng90_random_sent (m : CrcModel) : List Nat :=
  let hdr := (rng90_write_bytes random_packet).2
  let filler := List.replicate RNG90_OPERATION_RANDOM_DATA_SIZE 0x00
  let c := crcResult m (hdr ++ filler)
  hdr ++ filler ++ [c % 256, c / 256 % 256]

/-- `struct RNG90_Frame_t`: declared length plus validity.  The C enum value
`RNG90_Data_Status_Valid` is modelled as `valid = true`. -/
structure RNG90_Frame where
  length : Nat
  valid : Bool
deriving DecidableEq

/-- Observable outcome of `rng90_data`: the returned frame, the bytes stored
into the caller's buffer (in index order 0, 1, ...), and the acknowledge flag
passed to each `twi_get` in order (`true` = `TWI_ACK`). -/
structure DataResult where
  frame : RNG90_Frame
  writes : List Nat
  acks : List Bool
deriving DecidableEq

/-- The payload loop of `rng90_data` (rng90.c lines 87-98).  The C loop is
`for (i = 0; i < rng90_frame.length - RNG90_CRC_SIZE; i++)`; its `i = 0`
iteration reads the length byte (handled by the caller below), after which
`length` is the device-declared value `L`, so the remaining iterations are
`i = 1 .. L-3`, a trip count of `(L - 2) - 1`.  The recursion is on that trip
count; `i` tracks the C loop index, which is also the bus read position.
Each iteration reads a byte, folds it into the checksum state `s`, and stores
it at buffer index `i - 1` (position `w.length` of the write list `w`). -/
def rng90_data_loop (m : CrcModel) (stream : Nat → Nat) :
    Nat → Nat → Nat → List Nat → Nat × List Nat
  | 0, _, s, w => (s, w)
  | k + 1, i, s, w =>
      rng90_data_loop m stream k (i + 1) (m.update s (stream i % 256))
        (w ++ [stream i % 256])

/-- `rng90_data` (rng90.c lines 74-114): read the length byte `L` (folded
into the checksum), read `L - 3` payload bytes into the caller's buffer
(each folded into the checksum), read the two checksum bytes (low first with
`TWI_ACK`, high last with `TWI_NACK`), assemble them little-endian, and mark
the frame valid exactly when the received value equals `crc16_result()`.

For `L < 2` the C loop bound `rng90_frame.length - RNG90_CRC_SIZE`
underflows (`RNG90_CRC_SIZE` is `2UL`, so the subtraction is an unsigned-long
wrap-around): the loop runs far past the buffer, with the 8-bit index `i`
wrapping and re-reading length bytes, and need not terminate.  That divergent
behaviour is modelled as `none`. -/
def rng90_data (m : CrcModel) (stream : Nat → Nat) : Option DataResult :=
  let L := stream 0 % 256
  if L < 2 then none
  else
    let s0 := m.update m.init L
    let r := rng90_data_loop m stream (L - 2 - 1) 1 s0 []
    let n := r.2.length
    let lo := stream (n + 1) % 256
    let hi := stream (n + 2) % 256
    let crcRecv := lo + 256 * hi
    some ⟨⟨L, crcRecv == m.result r.1 % 65536⟩, r.2,
      (true :: List.replicate n true) ++ [true, false]⟩

/-- `rng90_selftest` (rng90.c lines 136-155) response classification: a valid
4-byte standard frame returns its payload byte cast to the self-test status
enum; anything else is `RNG90_SelfTest_Error`.  The `test` selector only
affects the transmitted packet (`rng90_selftest_sent`), not classification,
and every `twi_set` result is ignored (`wres` is unused, as in the C code). -/
def rng90_selftest (test : Nat) (m : CrcModel) (wres : Nat → Bool)
    (stream : Nat → Nat) : Option Nat :=
  match rng90_data m stream with
  | none => none
  | some r =>
      if r.frame.length == RNG90_STANDARD_FRAME_SIZE && r.frame.valid then
        some (r.writes.getD 0 0)
      else some RNG90_SelfTest_Error

/-- `rng90_init` (rng90.c lines 34-41): run the DRBG self-test; any result
other than `RNG90_SelfTest_Success` becomes `RNG90_Status_SelfTest_Error`,
success becomes `RNG90_Status_Success`. -/
def rng90_init (m : CrcModel) (wres : Nat → Bool) (stream : Nat → Nat) :
    Option Nat :=
  match rng90_selftest RNG90_Run_DRBG_SelfTest m wres stream with
  | none => none
  | some st =>
      if st ≠ RNG90_SelfTest_Success then some RNG90_Status_SelfTest_Error
      else some RNG90_Status_Success

/-- `struct RNG90_Info_t`: the four device-information fields. -/
structure RNG90_Info where
  RFU : Nat
  DeviceID : Nat
  SiliconID : Nat
  Revision : Nat
deriving DecidableEq

/-- `rng90_info` (rng90.c lines 178-205): result status byte plus the info
structure written through the caller's pointer (`none` when it is not
written).  Valid 4-byte frame: payload byte passthrough.  Valid 7-byte frame:
buffer bytes 0-3 become RFU, DeviceID, SiliconID, Revision and the status is
`RNG90_Status_Success`.  Otherwise `RNG90_Status_Other_Error`.  All `twi_set`
results of the command phase are ignored (`wres` unused, as in the C code). -/
def rng90_info (m : CrcModel) (wres : Nat → Bool) (stream : Nat → Nat) :
    Option (Nat × Option RNG90_Info) :=
  match rng90_data m stream with
  | none => none
  | some r =>
      if r.frame.length == RNG90_STANDARD_FRAME_SIZE && r.frame.valid then
        some (r.writes.getD 0 0, none)
      else if r.frame.length == RNG90_INFO_FRAME_SIZE && r.frame.valid then
        some (RNG90_Status_Success,
          some ⟨r.writes.getD 0 0, r.writes.getD 1 0,
                r.writes.getD 2 0, r.writes.getD 3 0⟩)
      else some (RNG90_Status_Other_Error, none)

/-- `rng90_serial` (rng90.c lines 285-312): result status byte plus the bytes
copied into the caller's serial buffer (indices 0..7,
`RNG90_OPERATION_READ_SERIAL_SIZE = 8`, copied only on the valid 19-byte
frame path). -/
def rng90_serial (m : CrcModel) (wres : Nat → Bool) (stream : Nat → Nat) :
    Option (Nat × List Nat) :=
  match rng90_data m stream with
  | none => none
  | some r =>
      if r.frame.length == RNG90_STANDARD_FRAME_SIZE && r.frame.valid then
        some (r.writes.getD 0 0, [])
      else if r.frame.length == RNG90_SERIAL_FRAME_SIZE && r.frame.valid then
        some (RNG90_Status_Success,
          (List.range RNG90_OPERATION_READ_SERIAL_SIZE).map
            (fun i => r.writes.getD i 0))
      else some (RNG90_Status_Other_Error, [])

/-- `rng90_random` (rng90.c lines 224-268): the twenty filler-payload
`twi_set` calls (write indices 6..25 of the transaction) are the only writes
whose result the driver checks; the first failure makes the function stop the
transaction and return `RNG90_Status_TWI_Error` without reading any frame and
without touching the caller's buffer.  Otherwise the response frame is read
and classified: valid 4-byte frame → payload byte passthrough; valid 35-byte
frame → buffer bytes 0..31 are copied to the caller and the status is
`RNG90_Status_Success`; anything else → `RNG90_Status_Other_Error`. -/
def rng90_random (m : CrcModel) (wres : Nat → Bool) (stream : Nat → Nat) :
    Option (Nat × List Nat) :=
  match (List.range RNG90_OPERATION_RANDOM_DATA_SIZE).find?
      (fun i => ! wres (6 + i)) with
  | some _ => some (RNG90_Status_TWI_Error, [])
  | none =>
      match rng90_data m stream with
      | none => none
      | some r =>
          if r.frame.length == RNG90_STANDARD_FRAME_SIZE && r.frame.valid then
            some (r.writes.getD 0 0, [])
          else if r.frame.length == RNG90_NUMBER_FRAME_SIZE && r.frame.valid then
            some (RNG90_Status_Success,
              (List.range RNG90_OPERATION_RANDOM_RNG_SIZE).map
                (fun i => r.writes.getD i 0))
          else some (RNG90_Status_Other_Error, [])

/- Concrete instances used by witnesses. -/

/-- Bus stream delivering the bytes of `bs` in order (0 past the end). -/
def streamOf (bs : List Nat) : Nat → Nat := fun i => bs.getD i 0

/-- A concrete, trivially computable checksum engine instance (the theorems
quantify over every engine; witnesses need one to evaluate). -/
def crcM0 : CrcModel := ⟨0, fun s b => (s + b) % 65536, fun s => s⟩

/-- Valid 4-byte standard frame with payload byte 5 (under `crcM0`). -/
def streamStd4 : Nat → Nat := streamOf [4, 5, 9, 0]

/-- 4-byte frame with payload byte 5 and a wrong checksum. -/
def streamStd4bad : Nat → Nat := streamOf [4, 5, 8, 0]

/-- Valid 7-byte info frame with payload bytes 1, 2, 3, 4. -/
def streamInfo7 : Nat → Nat := streamOf [7, 1, 2, 3, 4, 17, 0]

/-- Valid 4-byte frame carrying the self-test pass code 0x00. -/
def streamPass : Nat → Nat := streamOf [4, 0, 4, 0]

/-- Valid 4-byte frame carrying the DRBG-fail self-test code 0x01. -/
def streamFail1 : Nat → Nat := streamOf [4, 1, 5, 0]

/-- Valid 4-byte frame carrying the byte 0xF0 = 240 (the numeric value of
`RNG90_Status_TWI_Error`). -/
def streamF0 : Nat → Nat := streamOf [4, 240, 244, 0]

/- Helper lemmas (shared; claim theorems below build on these). -/

theorem rng90_data_loop_spec (m : CrcModel) (stream : Nat → Nat) (k : Nat) :
    ∀ (i s : Nat) (w : List Nat),
      rng90_data_loop m stream k i s w =
        (((List.range k).map (fun j => stream (i + j) % 256)).foldl m.update s,
         w ++ (List.range k).map (fun j => stream (i + j) % 256)) := by
  induction k with
  | zero => intro i s w; simp [rng90_data_loop]
  | succ k ih =>
      intro i s w
      rw [rng90_data_loop, ih]
      have hmap : (List.range (k + 1)).map (fun j => stream (i + j) % 256) =
          (stream i % 256) ::
            (List.range k).map (fun j => stream (i + 1 + j) % 256) := by
        rw [List.range_succ_eq_map, List.map_cons, List.map_map]
        refine congrArg (_ :: ·) (List.map_congr_left fun j _ => ?_)
        simp [Function.comp]
        refine congrArg (· % 256) (congrArg stream ?_)
        omega
      rw [hmap]
      simp [List.foldl_cons, List.append_assoc]

theorem rng90_data_spec (m : CrcModel) (stream : Nat → Nat)
    (h : 2 ≤ stream 0 % 256) :
    rng90_data m stream =
      some ⟨⟨stream 0 % 256,
        stream (stream 0 % 256 - 3 + 1) % 256 +
            256 * (stream (stream 0 % 256 - 3 + 2) % 256) ==
          crcResult m ((stream 0 % 256) ::
            (List.range (stream 0 % 256 - 3)).map (fun j => stream (1 + j) % 256))⟩,
        (List.range (stream 0 % 256 - 3)).map (fun j => stream (1 + j) % 256),
        (true :: List.replicate (stream 0 % 256 - 3) true) ++ [true, false]⟩ := by
  unfold rng90_data
  rw [if_neg (by omega)]
  dsimp only
  rw [rng90_data_loop_spec]
  have h31 : stream 0 % 256 - 2 - 1 = stream 0 % 256 - 3 := by omega
  simp only [h31, List.nil_append, List.length_map, List.length_range]
  simp [crcResult, List.foldl_cons]

theorem map_getD_range (l : List Nat) (d : Nat) :
    (List.range l.length).map (fun i => l.getD i d) = l := by
  induction l with
  | nil => simp
  | cons a t ih =>
      rw [List.length_cons, List.range_succ_eq_map, List.map_cons, List.map_map]
      refine congrArg (a :: ·) ?_
      exact (List.map_congr_left fun j _ => rfl).trans ih

theorem rng90_data_loopback (m : CrcModel) (mid : List Nat)
    (hb : ∀ b ∈ mid, b < 256) (hlen : mid.length + 3 ≤ 255) :
    rng90_data m (streamOf ((mid.length + 3) ::
        (mid ++ [crcResult m ((mid.length + 3) :: mid) % 256,
                 crcResult m ((mid.length + 3) :: mid) / 256 % 256]))) =
      some ⟨⟨mid.length + 3, true⟩, mid,
        (true :: List.replicate mid.length true) ++ [true, false]⟩ := by
  set c := crcResult m ((mid.length + 3) :: mid) with hc
  set bs := (mid.length + 3) :: (mid ++ [c % 256, c / 256 % 256]) with hbs
  have hclt : c < 65536 := by
    rw [hc]; exact Nat.mod_lt _ (by norm_num)
  have hb0 : streamOf bs 0 = mid.length + 3 := rfl
  have h0 : streamOf bs 0 % 256 = mid.length + 3 := by
    rw [hb0]; exact Nat.mod_eq_of_lt (by omega)
  have h2 : 2 ≤ streamOf bs 0 % 256 := by omega
  rw [rng90_data_spec m (streamOf bs) h2]
  simp only [h0, Nat.add_sub_cancel]
  have hpay : (List.range mid.length).map (fun j => streamOf bs (1 + j) % 256) = mid := by
    have hstep : ∀ j ∈ List.range mid.length,
        streamOf bs (1 + j) % 256 = mid.getD j 0 := by
      intro j hj
      have hjlt : j < mid.length := List.mem_range.mp hj
      have h1j : (1 : Nat) + j = j + 1 := by omega
      have hgd : streamOf bs (1 + j) = mid.getD j 0 := by
        show bs.getD (1 + j) 0 = mid.getD j 0
        rw [hbs, h1j, List.getD_cons_succ]
        exact List.getD_append _ _ _ _ hjlt
      rw [hgd]
      have hmem : mid.getD j 0 ∈ mid := by
        rw [List.getD_eq_getElem _ _ hjlt]
        exact List.getElem_mem hjlt
      exact Nat.mod_eq_of_lt (hb _ hmem)
    rw [List.map_congr_left hstep, map_getD_range]
  have hlo : streamOf bs (mid.length + 1) % 256 = c % 256 := by
    have hgd : streamOf bs (mid.length + 1) = c % 256 := by
      show bs.getD (mid.length + 1) 0 = c % 256
      rw [hbs, List.getD_cons_succ,
        List.getD_append_right _ _ _ _ (le_refl mid.length), Nat.sub_self]
      rfl
    rw [hgd]
    exact Nat.mod_eq_of_lt (Nat.mod_lt _ (by norm_num))
  have hhi : streamOf bs (mid.length + 2) % 256 = c / 256 := by
    have hgd : streamOf bs (mid.length + 2) = c / 256 % 256 := by
      show bs.getD (mid.length + 2) 0 = c / 256 % 256
      have h21 : mid.length + 2 = (mid.length + 1) + 1 := by omega
      rw [hbs, h21, List.getD_cons_succ,
        List.getD_append_right _ _ _ _ (by omega : mid.length ≤ mid.length + 1)]
      have h11 : mid.length + 1 - mid.length = 1 := by omega
      rw [h11]
      rfl
    have hd : c / 256 < 256 := by omega
    rw [hgd, Nat.mod_eq_of_lt hd, Nat.mod_eq_of_lt hd]
  rw [hpay, hlo, hhi]
  have hsum : c % 256 + 256 * (c / 256) = c := Nat.mod_add_div c 256
  rw [hsum, ← hc]
  simp

theorem rng90_random_find_none (wres : Nat → Bool)
    (hok : ∀ i, i < 20 → wres (6 + i) = true) :
    (List.range RNG90_OPERATION_RANDOM_DATA_SIZE).find?
      (fun i => ! wres (6 + i)) = none := by
  refine List.find?_eq_none.mpr fun x hx => ?_
  have hx20 : x < 20 := by
    simpa [RNG90_OPERATION_RANDOM_DATA_SIZE] using List.mem_range.mp hx
  simp [hok x hx20]

theorem rng90_random_wres_fail (m : CrcModel) (wres : Nat → Bool)
    (stream : Nat → Nat) (hfail : ∃ i, i < 20 ∧ wres (6 + i) = false) :
    rng90_random m wres stream = some (RNG90_Status_TWI_Error, []) := by
  obtain ⟨i, hi, hw⟩ := hfail
  have hsome : ((List.range RNG90_OPERATION_RANDOM_DATA_SIZE).find?
      (fun i => ! wres (6 + i))).isSome := by
    rw [List.find?_isSome]
    exact ⟨i, List.mem_range.mpr (by simpa [RNG90_OPERATION_RANDOM_DATA_SIZE] using hi),
      by simp [hw]⟩
  obtain ⟨j, hj⟩ := Option.isSome_iff_exists.mp hsome
  unfold rng90_random
  rw [hj]

/-- C5: for every constructed command frame, at the moment of transmission the
count field (the first transmitted header byte) equals exactly 7 plus the
number of extra payload bytes streamed for that operation: 7 for selftest,
info and serial (no extra payload), and 7 + 20 = 27 for the random-generation
operation (20 filler bytes).  The transmitted frame length matches the count
field, for every checksum engine. -/
theorem rng90_count_invariant (m : CrcModel) (test : Nat) :
    (rng90_selftest_sent m test).head? = some 7 ∧
    (rng90_selftest_sent m test).length = 7 ∧
    (rng90_info_sent m).head? = some 7 ∧
    (rng90_info_sent m).length = 7 ∧
    (rng90_serial_sent m).head? = some 7 ∧
    (rng90_serial_sent m).length = 7 ∧
    (rng90_random_sent m).head? = some (7 + RNG90_OPERATION_RANDOM_DATA_SIZE) ∧
    (rng90_random_sent m).length = 7 + RNG90_OPERATION_RANDOM_DATA_SIZE := by
  refine ⟨?_, ?_, ?_, ?_, ?_, ?_, ?_, ?_⟩ <;>
    simp [rng90_selftest_sent, rng90_info_sent, rng90_serial_sent,
      rng90_random_sent, rng90_command_bytes, rng90_write_bytes,
      packetHeaderBytes, selftest_packet, info_packet, serial_packet,
      random_packet, RNG90_OPERATION_RANDOM_DATA_SIZE,
      RNG90_OPERATION_SELF_TEST, RNG90_OPERATION_INFO, RNG90_OPERATION_READ,
      RNG90_OPERATION_RANDOM]

/-- C8: framing round trip.  For any command packet contents (any opcode and
parameters) and any checksum engine, feeding the serialized command frame
back through a loopback transport into the frame receiver reproduces the
header-tail bytes and yields a frame that always validates (the checksum
accumulated while serializing equals the one recomputed while deserializing);
likewise for the random-generation frame with its twenty filler payload
bytes. -/
theorem rng90_loopback (m : CrcModel) (op p1 p2 : Nat) :
    rng90_data m (streamOf (rng90_command_bytes m ⟨0, op, p1, p2, 0⟩)) =
      some ⟨⟨7, true⟩, [op % 256, p1 % 256, p2 % 256, p2 / 256 % 256],
        (true :: List.replicate 4 true) ++ [true, false]⟩ ∧
    rng90_data m (streamOf (rng90_random_sent m)) =
      some ⟨⟨27, true⟩,
        [RNG90_OPERATION_RANDOM, 0, 0, 0] ++ List.replicate 20 0,
        (true :: List.replicate 24 true) ++ [true, false]⟩ := by
  constructor
  · have h := rng90_data_loopback m
      [op % 256, p1 % 256, p2 % 256, p2 / 256 % 256]
      (by
        intro b hbmem
        fin_cases hbmem <;> exact Nat.mod_lt _ (by norm_num))
      (by simp)
    have hm : ([op % 256, p1 % 256, p2 % 256, p2 / 256 % 256] : List Nat).length + 3 = 7 := by
      simp
    rw [hm] at h
    have hcb : rng90_command_bytes m ⟨0, op, p1, p2, 0⟩ =
        7 :: ([op % 256, p1 % 256, p2 % 256, p2 / 256 % 256] ++
          [crcResult m (7 :: [op % 256, p1 % 256, p2 % 256, p2 / 256 % 256]) % 256,
           crcResult m (7 :: [op % 256, p1 % 256, p2 % 256, p2 / 256 % 256]) / 256 % 256]) := by
      simp [rng90_command_bytes, rng90_write_bytes, packetHeaderBytes]
    rw [hcb]
    simpa using h
  · have h := rng90_data_loopback m
      (([RNG90_OPERATION_RANDOM, 0, 0, 0] : List Nat) ++ List.replicate 20 0)
      (by
        intro b hbmem
        rcases List.mem_append.mp hbmem with hmem | hmem
        · fin_cases hmem <;> norm_num [RNG90_OPERATION_RANDOM]
        · rw [List.eq_of_mem_replicate hmem]; norm_num)
      (by simp)
    have hm : (([RNG90_OPERATION_RANDOM, 0, 0, 0] : List Nat) ++
        List.replicate 20 0).length + 3 = 27 := by simp
    rw [hm] at h
    have hcb : rng90_random_sent m =
        27 :: ((([RNG90_OPERATION_RANDOM, 0, 0, 0] : List Nat) ++ List.replicate 20 0) ++
          [crcResult m (27 :: (([RNG90_OPERATION_RANDOM, 0, 0, 0] : List Nat) ++
            List.replicate 20 0)) % 256,
           crcResult m (27 :: (([RNG90_OPERATION_RANDOM, 0, 0, 0] : List Nat) ++
            List.replicate 20 0)) / 256 % 256]) := by
      simp [rng90_random_sent, rng90_write_bytes, packetHeaderBytes,
        random_packet, RNG90_OPERATION_RANDOM_DATA_SIZE, RNG90_OPERATION_RANDOM]
    rw [hcb]
    simpa using h

/-- C4: the frame receiver reads one length byte first, then exactly
`length - 3` further payload bytes into the caller's buffer, includes the
length byte itself as the first byte accumulated into the checksum, assembles
the trailing two checksum bytes little-endian (low byte first, the last byte
read with no-acknowledge), and returns the pair (length, validity) on every
path — the caller's buffer holds the raw payload bytes whether or not the
checksum validated.  (For declared lengths 0 and 1 the loop bound underflows
and the receiver's behaviour is unbounded — see the buffer-overrun theorem —
so the contract is stated for declared lengths of at least 2, where
`length - 3` is the truncated natural subtraction.) -/
theorem rng90_data_frame_contract (m : CrcModel) (stream : Nat → Nat)
    (h : 2 ≤ stream 0 % 256) :
    ∃ r : DataResult, rng90_data m stream = some r ∧
      r.frame.length = stream 0 % 256 ∧
      r.writes.length = r.frame.length - 3 ∧
      r.writes = (List.range (r.frame.length - 3)).map (fun j => stream (1 + j) % 256) ∧
      (r.frame.valid = true ↔
        stream (r.frame.length - 3 + 1) % 256 +
            256 * (stream (r.frame.length - 3 + 2) % 256) =
          crcResult m (r.frame.length :: r.writes)) ∧
      r.acks = (true :: List.replicate (r.frame.length - 3) true) ++ [true, false] := by
  refine ⟨_, rng90_data_spec m stream h, rfl, ?_, ?_, ?_, ?_⟩
  · simp
  · simp
  · simp
  · simp

/-- Witness for the frame-receiver contract at a concrete valid 4-byte
frame. -/
theorem rng90_data_frame_contract_witness :
    2 ≤ streamStd4 0 % 256 ∧
    ∃ r : DataResult, rng90_data crcM0 streamStd4 = some r ∧
      r.writes.length = r.frame.length - 3 := by
  refine ⟨by decide, ?_⟩
  obtain ⟨r, hr, -, hlen, -, -, -⟩ :=
    rng90_data_frame_contract crcM0 streamStd4 (by decide)
  exact ⟨r, hr, hlen⟩

/-- C1: for every operation, classification of the received frame follows the
length precedence: a valid 4-byte standard frame returns its single payload
byte as the status outcome; a valid frame of the operation's expected success
length (7 for info, 19 for serial, 35 for random) yields the typed result
(the four Device Info fields in order, the serial bytes, exactly 32 random
bytes) with Success; every other case returns the generic
other/communication error. -/
theorem rng90_length_classification (m : CrcModel) (wres : Nat → Bool)
    (stream : Nat → Nat) (r : DataResult)
    (hdata : rng90_data m stream = some r)
    (hok : ∀ i, i < 20 → wres (6 + i) = true) :
    (r.frame.length = RNG90_STANDARD_FRAME_SIZE → r.frame.valid = true →
      rng90_info m wres stream = some (r.writes.getD 0 0, none) ∧
      rng90_random m wres stream = some (r.writes.getD 0 0, []) ∧
      rng90_serial m wres stream = some (r.writes.getD 0 0, [])) ∧
    (r.frame.length = RNG90_INFO_FRAME_SIZE → r.frame.valid = true →
      rng90_info m wres stream = some (RNG90_Status_Success,
        some ⟨r.writes.getD 0 0, r.writes.getD 1 0,
              r.writes.getD 2 0, r.writes.getD 3 0⟩)) ∧
    (r.frame.length = RNG90_SERIAL_FRAME_SIZE → r.frame.valid = true →
      rng90_serial m wres stream = some (RNG90_Status_Success,
        (List.range RNG90_OPERATION_READ_SERIAL_SIZE).map
          (fun i => r.writes.getD i 0))) ∧
    (r.frame.length = RNG90_NUMBER_FRAME_SIZE → r.frame.valid = true →
      rng90_random m wres stream = some (RNG90_Status_Success,
        (List.range RNG90_OPERATION_RANDOM_RNG_SIZE).map
          (fun i => r.writes.getD i 0)) ∧
      ((List.range RNG90_OPERATION_RANDOM_RNG_SIZE).map
        (fun i => r.writes.getD i 0)).length = 32) ∧
    (r.frame.valid = false ∨
      (r.frame.length ≠ RNG90_STANDARD_FRAME_SIZE ∧
       r.frame.length ≠ RNG90_INFO_FRAME_SIZE) →
      rng90_info m wres stream = some (RNG90_Status_Other_Error, none)) ∧
    (r.frame.valid = false ∨
      (r.frame.length ≠ RNG90_STANDARD_FRAME_SIZE ∧
       r.frame.length ≠ RNG90_NUMBER_FRAME_SIZE) →
      rng90_random m wres stream = some (RNG90_Status_Other_Error, [])) ∧
    (r.frame.valid = false ∨
      (r.frame.length ≠ RNG90_STANDARD_FRAME_SIZE ∧
       r.frame.length ≠ RNG90_SERIAL_FRAME_SIZE) →
      rng90_serial m wres stream = some (RNG90_Status_Other_Error, [])) := by
  have hfind := rng90_random_find_none wres hok
  refine ⟨?_, ?_, ?_, ?_, ?_, ?_, ?_⟩
  · intro h1 h2
    refine ⟨?_, ?_, ?_⟩
    · simp [rng90_info, hdata, h1, h2, RNG90_STANDARD_FRAME_SIZE]
    · simp [rng90_random, hfind, hdata, h1, h2, RNG90_STANDARD_FRAME_SIZE]
    · simp [rng90_serial, hdata, h1, h2, RNG90_STANDARD_FRAME_SIZE]
  · intro h1 h2
    simp [rng90_info, hdata, h1, h2, RNG90_STANDARD_FRAME_SIZE,
      RNG90_INFO_FRAME_SIZE]
  · intro h1 h2
    simp [rng90_serial, hdata, h1, h2, RNG90_STANDARD_FRAME_SIZE,
      RNG90_SERIAL_FRAME_SIZE]
  · intro h1 h2
    constructor
    · simp [rng90_random, hfind, hdata, h1, h2, RNG90_STANDARD_FRAME_SIZE,
        RNG90_NUMBER_FRAME_SIZE]
    · simp [RNG90_OPERATION_RANDOM_RNG_SIZE]
  · intro hcase
    rcases hcase with hv | ⟨h4, h7⟩
    · simp [rng90_info, hdata, hv]
    · simp only [RNG90_STANDARD_FRAME_SIZE, RNG90_INFO_FRAME_SIZE] at h4 h7
      simp [rng90_info, hdata, h4, h7, RNG90_STANDARD_FRAME_SIZE,
        RNG90_INFO_FRAME_SIZE]
  · intro hcase
    rcases hcase with hv | ⟨h4, h35⟩
    · simp [rng90_random, hfind, hdata, hv]
    · simp only [RNG90_STANDARD_FRAME_SIZE, RNG90_NUMBER_FRAME_SIZE] at h4 h35
      simp [rng90_random, hfind, hdata, h4, h35, RNG90_STANDARD_FRAME_SIZE,
        RNG90_NUMBER_FRAME_SIZE]
  · intro hcase
    rcases hcase with hv | ⟨h4, h19⟩
    · simp [rng90_serial, hdata, hv]
    · simp only [RNG90_STANDARD_FRAME_SIZE, RNG90_SERIAL_FRAME_SIZE] at h4 h19
      simp [rng90_serial, hdata, h4, h19, RNG90_STANDARD_FRAME_SIZE,
        RNG90_SERIAL_FRAME_SIZE]

/-- Witness for the classification precedence at a concrete valid 4-byte
standard frame with payload byte 5. -/
theorem rng90_length_classification_witness :
    rng90_info crcM0 (fun _ => true) streamStd4 = some (5, none) ∧
    rng90_random crcM0 (fun _ => true) streamStd4 = some (5, []) ∧
    rng90_serial crcM0 (fun _ => true) streamStd4 = some (5, []) := by
  have h := rng90_length_classification crcM0 (fun _ => true) streamStd4
    ⟨⟨4, true⟩, [5], [true, true, true, false]⟩ (by decide) (fun i _ => rfl)
  exact h.1 rfl rfl

/-- C3: a received frame whose checksum does not match is rejected by every
operation with the generic other/communication error, regardless of its
declared length — an invalid frame never yields the status-byte passthrough
or the typed success result. -/
theorem rng90_invalid_frame_rejected (m : CrcModel) (wres : Nat → Bool)
    (stream : Nat → Nat) (r : DataResult) (test : Nat)
    (hdata : rng90_data m stream = some r)
    (hok : ∀ i, i < 20 → wres (6 + i) = true)
    (hinv : r.frame.valid = false) :
    rng90_selftest test m wres stream = some RNG90_SelfTest_Error ∧
    rng90_info m wres stream = some (RNG90_Status_Other_Error, none) ∧
    rng90_random m wres stream = some (RNG90_Status_Other_Error, []) ∧
    rng90_serial m wres stream = some (RNG90_Status_Other_Error, []) := by
  have hfind := rng90_random_find_none wres hok
  refine ⟨?_, ?_, ?_, ?_⟩
  · simp [rng90_selftest, hdata, hinv]
  · simp [rng90_info, hdata, hinv]
  · simp [rng90_random, hfind, hdata, hinv]
  · simp [rng90_serial, hdata, hinv]

/-- Witness for checksum-mismatch rejection at a concrete 4-byte frame with a
corrupted checksum: although the declared length is the standard 4, the
status-byte passthrough is not taken. -/
theorem rng90_invalid_frame_rejected_witness :
    rng90_info crcM0 (fun _ => true) streamStd4bad =
      some (RNG90_Status_Other_Error, none) ∧
    rng90_random crcM0 (fun _ => true) streamStd4bad =
      some (RNG90_Status_Other_Error, []) := by
  have h := rng90_invalid_frame_rejected crcM0 (fun _ => true) streamStd4bad
    ⟨⟨4, false⟩, [5], [true, true, true, false]⟩ 0 (by decide)
    (fun i _ => rfl) rfl
  exact ⟨h.2.1, h.2.2.1⟩

/-- C10: on a valid 4-byte standard frame whose payload byte is b, every
operation returns exactly b, with no validation or remapping — so the
returned value may lie outside the status enumeration, and a device-reported
byte equal to 0xF0 or 0xFF (the driver's own TWI-error and other-error
values, last two conjuncts) is indistinguishable from those driver-generated
results. -/
theorem rng90_status_byte_passthrough (m : CrcModel) (wres : Nat → Bool)
    (stream : Nat → Nat) (r : DataResult) (test b : Nat)
    (hdata : rng90_data m stream = some r)
    (hok : ∀ i, i < 20 → wres (6 + i) = true)
    (h4 : r.frame.length = RNG90_STANDARD_FRAME_SIZE)
    (hv : r.frame.valid = true)
    (hb : r.writes.getD 0 0 = b) :
    rng90_selftest test m wres stream = some b ∧
    rng90_info m wres stream = some (b, none) ∧
    rng90_random m wres stream = some (b, []) ∧
    rng90_serial m wres stream = some (b, []) ∧
    RNG90_Status_TWI_Error = 0xF0 ∧
    RNG90_Status_Other_Error = 0xFF := by
  have hfind := rng90_random_find_none wres hok
  rw [List.getD_eq_getElem?_getD] at hb
  refine ⟨?_, ?_, ?_, ?_, rfl, rfl⟩
  · simp [rng90_selftest, hdata, h4, hv, hb, RNG90_STANDARD_FRAME_SIZE]
  · simp [rng90_info, hdata, h4, hv, hb, RNG90_STANDARD_FRAME_SIZE]
  · simp [rng90_random, hfind, hdata, h4, hv, hb, RNG90_STANDARD_FRAME_SIZE]
  · simp [rng90_serial, hdata, h4, hv, hb, RNG90_STANDARD_FRAME_SIZE]

/-- Witness for the status-byte passthrough at payload byte 0xF0 = 240: the
result collides with the driver's own `RNG90_Status_TWI_Error` value. -/
theorem rng90_status_byte_passthrough_witness :
    rng90_info crcM0 (fun _ => true) streamF0 =
      some (RNG90_Status_TWI_Error, none) := by
  have h := rng90_status_byte_passthrough crcM0 (fun _ => true) streamF0
    ⟨⟨4, true⟩, [240], [true, true, true, false]⟩ 0 240 (by decide)
    (fun i _ => rfl) rfl rfl rfl
  exact h.2.1

/-- C7: `rng90_init` is exactly the composition of the DRBG self-test with a
result mapping — the pass code 0x00 becomes Success, every other self-test
code becomes the initialization-failure status. -/
theorem rng90_init_composition (m : CrcModel) (wres : Nat → Bool)
    (stream : Nat → Nat) (st : Nat)
    (hst : rng90_selftest RNG90_Run_DRBG_SelfTest m wres stream = some st) :
    (st = RNG90_SelfTest_Success →
      rng90_init m wres stream = some RNG90_Status_Success) ∧
    (st ≠ RNG90_SelfTest_Success →
      rng90_init m wres stream = some RNG90_Status_SelfTest_Error) := by
  constructor <;> intro h <;> simp [rng90_init, hst, h]

/-- Witness for the init composition: a valid 4-byte frame carrying 0x00
makes init report Success, carrying 0x01 (DRBG fail) makes it report the
self-test failure status. -/
theorem rng90_init_composition_witness :
    rng90_init crcM0 (fun _ => true) streamPass = some RNG90_Status_Success ∧
    rng90_init crcM0 (fun _ => true) streamFail1 =
      some RNG90_Status_SelfTest_Error := by
  constructor
  · exact (rng90_init_composition crcM0 (fun _ => true) streamPass 0
      (by decide)).1 rfl
  · exact (rng90_init_composition crcM0 (fun _ => true) streamFail1 1
      (by decide)).2 (by decide)

/-- C6: if the transport fails on a filler-payload byte write, `rng90_random`
returns the bus-error status with the caller's numbers buffer untouched; more
generally, on every return path other than Success no byte is written into
the caller's buffer. -/
theorem rng90_random_buffer_untouched (m : CrcModel) (wres : Nat → Bool)
    (stream : Nat → Nat) :
    (∀ i, i < 20 → wres (6 + i) = false →
      rng90_random m wres stream = some (RNG90_Status_TWI_Error, [])) ∧
    (∀ st ws, rng90_random m wres stream = some (st, ws) →
      st ≠ RNG90_Status_Success → ws = []) := by
  constructor
  · intro i hi hw
    exact rng90_random_wres_fail m wres stream ⟨i, hi, hw⟩
  · intro st ws hr hst
    unfold rng90_random at hr
    cases hfind : (List.range RNG90_OPERATION_RANDOM_DATA_SIZE).find?
        (fun i => ! wres (6 + i)) with
    | some j =>
        rw [hfind] at hr
        simp only [Option.some.injEq, Prod.mk.injEq] at hr
        exact hr.2.symm
    | none =>
        rw [hfind] at hr
        cases hdata : rng90_data m stream with
        | none => rw [hdata] at hr; exact absurd hr (by simp)
        | some r =>
            rw [hdata] at hr
            dsimp only at hr
            by_cases h1 :
                (r.frame.length == RNG90_STANDARD_FRAME_SIZE && r.frame.valid) = true
            · rw [if_pos h1] at hr
              simp only [Option.some.injEq, Prod.mk.injEq] at hr
              exact hr.2.symm
            · rw [if_neg h1] at hr
              by_cases h2 :
                  (r.frame.length == RNG90_NUMBER_FRAME_SIZE && r.frame.valid) = true
              · rw [if_pos h2] at hr
                simp only [Option.some.injEq, Prod.mk.injEq] at hr
                exact absurd hr.1.symm hst
              · rw [if_neg h2] at hr
                simp only [Option.some.injEq, Prod.mk.injEq] at hr
                exact hr.2.symm

/-- Witness for the untouched-buffer property: the fourth filler write fails
(write index 9 of the transaction), and `rng90_random` reports the bus error
with an empty write trace. -/
theorem rng90_random_buffer_untouched_witness :
    rng90_random crcM0 (fun n => decide (n ≠ 9)) (streamOf []) =
      some (RNG90_Status_TWI_Error, []) :=
  (rng90_random_buffer_untouched crcM0 (fun n => decide (n ≠ 9))
    (streamOf [])).1 3 (by decide) (by decide)

/-- C2 as stated is false — this exhibits the counterexample: with a
transport on which every single byte write fails, `rng90_info` does not
abort with a bus error; it silently proceeds, reads the response frame, and
even reports Success.  The driver never inspects the `twi_set` results of
the header and checksum writes. -/
theorem rng90_info_ignores_write_failures :
    rng90_info crcM0 (fun _ => false) streamInfo7 =
      some (RNG90_Status_Success, some ⟨1, 2, 3, 4⟩) ∧
    RNG90_Status_Success ≠ RNG90_Status_TWI_Error := by
  exact ⟨by decide, by decide⟩

/-- C2 amended: only the twenty filler-payload writes of `rng90_random` are
checked.  If one of them fails, `rng90_random` returns the bus-error status
immediately, for every response stream alike (so before any settle delay or
frame read can matter); the results of `rng90_info`, `rng90_serial` and
`rng90_selftest` are entirely independent of write failures. -/
theorem rng90_write_error_handling_amended (m : CrcModel)
    (wres wres2 : Nat → Bool)
    (hfail : ∃ i, i < 20 ∧ wres (6 + i) = false) :
    (∀ stream, rng90_random m wres stream =
      some (RNG90_Status_TWI_Error, [])) ∧
    (∀ stream, rng90_info m wres stream = rng90_info m wres2 stream) ∧
    (∀ stream, rng90_serial m wres stream = rng90_serial m wres2 stream) ∧
    (∀ test stream, rng90_selftest test m wres stream =
      rng90_selftest test m wres2 stream) :=
  ⟨fun stream => rng90_random_wres_fail m wres stream hfail,
   fun _ => rfl, fun _ => rfl, fun _ _ => rfl⟩

/-- Witness for the amended write-error handling: every write failing makes
`rng90_random` return the bus error even on a stream that would decode as a
valid frame. -/
theorem rng90_write_error_handling_amended_witness :
    rng90_random crcM0 (fun _ => false) streamStd4 =
      some (RNG90_Status_TWI_Error, []) :=
  ((rng90_write_error_handling_amended crcM0 (fun _ => false) (fun _ => true)
    ⟨0, by decide, rfl⟩).1 streamStd4)

/-- C9 is refuted — the receiver is not memory safe for arbitrary declared
lengths.  At declared length 255 the payload loop stores 252 bytes (buffer
indices 0 to 251) although `rng90_buffer` holds only 87 bytes, and for
declared lengths 0 and 1 the loop bound `length - 2` underflows, which this
embedding marks as the undefined outcome `none`. -/
theorem rng90_data_buffer_overrun :
    (rng90_data crcM0 (fun _ => 255)).map (fun r => r.writes.length) =
      some 252 ∧
    RNG90_BUFFER_SIZE < 252 ∧
    rng90_data crcM0 (fun _ => 0) = none ∧
    rng90_data crcM0 (fun _ => 1) = none := by
  refine ⟨?_, by norm_num [RNG90_BUFFER_SIZE], rfl, rfl⟩
  rw [rng90_data_spec crcM0 (fun _ => 255) (by norm_num)]
  simp only [Option.map_some, Option.map_some', List.length_map,
    List.length_range, Option.some.injEq]
end RNG90
